import Mathlib

/-!
Shallow embedding of `AFQ/viz/fury_backend.py` (pyAFQ fury visualization
backend) and proofs about its claimed properties.

Modelling conventions:
* Machine floats are modelled by `ℚ`.  All arithmetic the module performs on
  coordinates, profiles, colors and slider values is elementary (affine
  combinations, comparisons, rounding), so `ℚ` represents it exactly, except
  for the Euclidean norms used in the per-node lighting factor of
  `_draw_core`, which involve square roots; that per-segment factor is kept
  as an explicit function parameter `adjust` (its value is irrelevant to the
  dataflow properties proved here).
* A streamline is a list of points, each point a function `Fin 3 → ℚ`.
* Python in-place array mutation (`sl[:, 0] = ...`) is modelled by explicit
  state passing: a function that mutates its caller's arrays returns the
  post-call contents of those arrays as part of its result.
* The single module-level mutable variable (`size`, written via
  `global size` inside `visualize_volume`) is modelled by a `Globals` value
  threaded through every function.
* Calls into the external rendering toolkit (fury/dipy `window`, `actor`,
  `ui`) are modelled as constructors of scene/actor data and an effect trace.
-/

set_option autoImplicit false
set_option linter.unusedVariables false

namespace FuryBackend

/-- A 3-d point (one row of a streamline's coordinate array). -/
abbrev Point : Type := Fin 3 → ℚ

/-- A streamline: a polyline given by its coordinate rows. -/
abbrev Streamline : Type := List Point

/-! ### numpy numeric helpers used by the module -/

/-- `np.round` on a scalar: round half to even (banker's rounding), as numpy
does, returning an integer (the module always wraps it in `int(...)`). -/
def npRound (q : ℚ) : ℤ :=
  let f := ⌊q⌋
  let r := q - (f : ℚ)
  if r < 1 / 2 then f
  else if 1 / 2 < r then f + 1
  else if f % 2 = 0 then f else f + 1

/-- `np.min` of a 1-d array (0 on the empty array, which numpy rejects). -/
def npMin : List ℚ → ℚ
  | [] => 0
  | x :: xs => xs.foldl min x

/-- `np.max` of a 1-d array (0 on the empty array, which numpy rejects). -/
def npMax : List ℚ → ℚ
  | [] => 0
  | x :: xs => xs.foldl max x

/-- `np.linspace lo hi num`: `num` evenly spaced samples from `lo` to `hi`
inclusive. -/
def linspace (lo hi : ℚ) (num : ℕ) : List ℚ :=
  (List.range num).map fun i => lo + (hi - lo) * (i : ℚ) / ((num : ℚ) - 1)

/-- `np.interp x xp fp` at a single point, with the sample points and values
zipped together: piecewise-linear interpolation, clamped to the first value
below the first sample point and to the last value above the last one. -/
def npInterp (x : ℚ) : List (ℚ × ℚ) → ℚ
  | [] => 0
  | [p] => p.2
  | p :: q :: rest =>
    if x ≤ p.1 then p.2
    else if x ≤ q.1 then p.2 + (q.2 - p.2) * (x - p.1) / (q.1 - p.1)
    else npInterp x (q :: rest)

/-! ### axis flipping (`visualize_bundles` lines 117-122, `_draw_core`
lines 488-493) -/

/-- One in-place column update `sl[:, i] = d - sl[:, i]`. -/
def flipAxis (i : Fin 3) (d : ℚ) (sl : Streamline) : Streamline :=
  sl.map fun p j => if j = i then d - p j else p j

/-- The three conditional column updates applied to one coordinate array,
exactly as in `visualize_bundles` (per streamline) and `_draw_core` (on the
median core line):
`if flip_axes[k]: sl[:, k] = dimensions[k] - sl[:, k]` for `k = 0, 1, 2`. -/
def flipStreamline (flip : Fin 3 → Bool) (dims : Fin 3 → ℚ)
    (sl : Streamline) : Streamline :=
  let s0 := if flip 0 then flipAxis 0 (dims 0) sl else sl
  let s1 := if flip 1 then flipAxis 1 (dims 1) s0 else s0
  if flip 2 then flipAxis 2 (dims 2) s1 else s1

/-! ### `_draw_core` colormap interpolation (lines 454-471) -/

/-- The fixed 10-entry colormap hard-coded in `_draw_core` (a viridis
sample); each row is an RGB triple. -/
def colormap : List Point :=
  [![(0.265625 : ℚ), 0.00390625, 0.328125],
   ![(0.28125 : ℚ), 0.15625, 0.46875],
   ![(0.2421875 : ℚ), 0.28515625, 0.53515625],
   ![(0.19140625 : ℚ), 0.40625, 0.5546875],
   ![(0.1484375 : ℚ), 0.5078125, 0.5546875],
   ![(0.12109375 : ℚ), 0.6171875, 0.53515625],
   ![(0.20703125 : ℚ), 0.71484375, 0.47265625],
   ![(0.4296875 : ℚ), 0.8046875, 0.34375],
   ![(0.70703125 : ℚ), 0.8671875, 0.16796875],
   ![(0.98828125 : ℚ), 0.90234375, 0.14453125]]

/-- The sample points `xp = np.linspace(np.min(indiv_profile),
np.max(indiv_profile), num=len(colormap))` from `_draw_core`. -/
def drawCoreXp (indiv_profile : List ℚ) : List ℚ :=
  linspace (npMin indiv_profile) (npMax indiv_profile) colormap.length

/-- The pre-shading per-node line colors of `_draw_core`: channel `j` of node
`k` is `np.interp(indiv_profile, xp, colormap[:, j])` evaluated at node `k`'s
profile value. -/
def drawCoreLineColor (indiv_profile : List ℚ) : List Point :=
  indiv_profile.map fun v j =>
    npInterp v (List.zip (drawCoreXp indiv_profile) (colormap.map fun c => c j))

/-- The first color of the fixed colormap. -/
def colormapFirst : Point := colormap.getD 0 fun _ => 0

/-- The last color of the fixed colormap. -/
def colormapLast : Point := colormap.getD (colormap.length - 1) fun _ => 0

/-! ### `_draw_core` shading loop (lines 473-480)

The Python loop is

    for i in range(n_points):
        if i < n_points - 1:
            ... direc_adjust = (np.dot(direc, light_direc) + 3) / 4
        line_color[i, 0:3] = line_color[i, 0:3] * direc_adjust

`direc_adjust` is a local variable that is only assigned inside the guard;
reading it before any assignment raises `UnboundLocalError`.  The numeric
value assigned at step `i` (from normalized direction and lighting vectors,
hence under square roots) is abstracted as `adjust i`; the loop's dataflow —
which node is scaled by which factor, and when the read fails — is modelled
exactly. -/

/-- One pass of the shading loop starting at index `i` with `k` iterations
left and `da` the current contents of the local `direc_adjust` (`none` =
never assigned).  Returns the list of factors each node is scaled by, or
`none` when a factor is read before its first assignment. -/
def shadeFactorsGo (adjust : ℕ → ℚ) (n : ℕ) : ℕ → ℕ → Option ℚ → Option (List ℚ)
  | 0, _, _ => some []
  | k + 1, i, da =>
    let da' := if i < n - 1 then some (adjust i) else da
    match da' with
    | none => none
    | some a => (shadeFactorsGo adjust n k (i + 1) (some a)).map fun rest => a :: rest

/-- The factors by which the shading loop of `_draw_core` scales each node's
color, for `n` nodes; `none` models the `UnboundLocalError` raised when
`direc_adjust` is read before any assignment. -/
def shadeFactors (adjust : ℕ → ℚ) (n : ℕ) : Option (List ℚ) :=
  shadeFactorsGo adjust n n 0 none

/-! ### fury scene / actor / ui model

The external toolkit's objects are modelled as first-order data: a `Scene`
carries an identity tag `sid` (Python object identity), the actors added to
it, and the camera/window attributes the module touches.  Side effects on
the toolkit (showing windows, snapshots, recording) are collected in an
`Effect` trace. -/

/-- A `ui.LineSlider2D` as constructed by `visualize_volume`. -/
structure Slider where
  minValue : ℚ
  maxValue : ℚ
  initialValue : ℚ
  sliderLength : ℕ
deriving DecidableEq

/-- A display extent `(x0, x1, y0, y1, z0, z1)` as passed to
`display_extent`. -/
abbrev Extent : Type := ℤ × ℤ × ℤ × ℤ × ℤ × ℤ

/-- A 3-d volume array: its shape and (flattened) data. -/
structure Volume where
  shape0 : ℕ
  shape1 : ℕ
  shape2 : ℕ
  data : List ℚ
deriving DecidableEq

/-- A 3-d ROI array, nested by axis. -/
abbrev Roi : Type := List (List (List ℚ))

/-- `np.flip` of a 3-d array along one axis. -/
def npFlip3 (i : Fin 3) (r : Roi) : Roi :=
  if i = 0 then r.reverse
  else if i = 1 then r.map List.reverse
  else r.map fun plane => plane.map List.reverse

/-- The color argument a bundle's `actor.line` call receives: an RGB value
from the tract generator, or `fury.colormap.line_colors(sls)` (computed from
the pre-flip streamlines) when the generator yields the `"all_bundles"`
group. -/
inductive BundleColor where
  | rgb (c : Point)
  | directional (sls : List Streamline)
deriving DecidableEq

/-- The actors the module creates. -/
inductive FuryActor where
  | line (sls : List Streamline) (color : Option BundleColor) (opacity : ℚ)
      (renderAsTubes : Bool) (lineWidth : ℕ)
  | lineColored (sls : List Streamline) (colors : List Point) (opacity : ℚ)
      (renderAsTubes : Bool) (lineWidth : ℕ)
  | contourFromRoi (roi : Roi) (color : Point) (opacity : ℚ)
  | slicer (vol : Volume) (extent : Option Extent) (opacity : ℚ)
  | panel (labels : List String) (sliders : List Slider)
deriving DecidableEq

/-- A fury `Scene`, with its Python object identity as `sid`. -/
structure Scene where
  sid : ℕ
  background : ℚ × ℚ × ℚ
  actors : List FuryActor
  zoomFactor : ℚ
  winSize : ℤ × ℤ
  clippingRangeReset : Bool
  elevationDeg : ℚ
  viewUp : ℚ × ℚ × ℚ
  cameraReset : Bool
deriving DecidableEq

/-- `window.Scene()`: a freshly allocated scene with identity `fresh`. -/
def Scene.new (fresh : ℕ) : Scene :=
  ⟨fresh, (0, 0, 0), [], 1, (0, 0), false, 0, (0, 1, 0), false⟩

/-- `figure.add(a)`. -/
def Scene.add (s : Scene) (a : FuryActor) : Scene :=
  { s with actors := s.actors ++ [a] }

/-- The module-level mutable state: the variable `size` written via
`global size` inside `visualize_volume`; `none` while it has never been
assigned. -/
abbrev Globals : Type := Option (ℤ × ℤ)

/-- External side effects on the toolkit / filesystem / notebook. -/
inductive Effect where
  | logInfo (msg : String)
  | showWindow (sid : ℕ)
  | snapshot (sid : ℕ) (size : ℤ × ℤ)
  | displayPng
  | record (sid : ℕ) (nFrames : ℕ) (magnification : ℚ) (size : ℕ × ℕ)
  | gifFromPngs (fileName : String) (nFrames : ℕ)
  | render (sid : ℕ)
  | startEventLoop (sid : ℕ)
deriving DecidableEq

/-! ### the import guard (lines 11-16) -/

/-- Python exception kinds relevant to the import guard
(`ModuleNotFoundError` is the subclass of `ImportError` raised by a missing
module). -/
inductive PyExc where
  | importError (msg : String)
  | moduleNotFoundError (msg : String)
deriving DecidableEq

/-- Modelled from the spec: `AFQ.viz.utils.viz_import_msg_error`, a helper of
the shared utility module (not under `src/`) that produces the guidance
message for a missing optional viz backend.  The claims compare against this
message symbolically, so only its identity matters, not its exact text. -/
def viz_import_msg_error (backend : String) : String :=
  "You will need to install " ++ backend ++ " to use this visualization backend"

/-- Which of the three optional imports are available. -/
structure ImportEnv where
  dipyViz : Bool
  furyColormap : Bool
  ipythonDisplay : Bool
deriving DecidableEq

/-- All three optional rendering dependencies are importable. -/
def ImportEnv.allPresent (e : ImportEnv) : Bool :=
  e.dipyViz && e.furyColormap && e.ipythonDisplay

/-- The module's import guard: the `try` block imports `dipy.viz`,
`fury.colormap` and `IPython.display` in order (a missing one raises
`ModuleNotFoundError`); the `except (ImportError, ModuleNotFoundError)`
clause replaces any such failure by
`ImportError(vut.viz_import_msg_error("fury"))`. -/
def moduleImportGuard (e : ImportEnv) : Except PyExc Unit :=
  let tryBlock : Except PyExc Unit :=
    if !e.dipyViz then Except.error (PyExc.moduleNotFoundError "dipy.viz")
    else if !e.furyColormap then Except.error (PyExc.moduleNotFoundError "fury.colormap")
    else if !e.ipythonDisplay then Except.error (PyExc.moduleNotFoundError "IPython.display")
    else Except.ok ()
  match tryBlock with
  | Except.ok () => Except.ok ()
  | Except.error _ => Except.error (PyExc.importError (viz_import_msg_error "fury"))

/-! ### `_inline_interact` (lines 21-36) -/

/-- `_inline_interact`: shows the scene interactively and/or snapshots it
inline, then returns the very scene it was given. -/
def _inline_interact (scene : Scene) (inline interact : Bool) :
    Scene × List Effect :=
  let t1 :=
    if interact then
      [Effect.logInfo "Showing interactive scene...", Effect.showWindow scene.sid]
    else []
  let t2 :=
    if inline then
      [Effect.logInfo "Showing inline scene...",
       Effect.snapshot scene.sid (1200, 1200), Effect.displayPng]
    else []
  (scene, t1 ++ t2)

/-! ### the shared utility helpers (`AFQ.viz.utils`, not under `src/`) -/

/-- Modelled from the spec: `AFQ.viz.utils.tract_generator`, a
loading/preprocessing helper of the shared utility module (not under
`src/`).  It yields `(sls, color, name, dimensions)` groups; with no bundle
selection and `n_points = None` (no resampling) it yields a single group
whose `sls` are the caller's own streamline coordinate arrays, together with
a bundle color, the group name and the reference volume dimensions, all
taken here as parameters. -/
def tract_generator (sft : List Streamline) (name : String)
    (color : BundleColor) (dims : Fin 3 → ℚ) :
    List (List Streamline × BundleColor × String × (Fin 3 → ℚ)) :=
  [(sft, color, name, dims)]

/-- Modelled from the spec: `AFQ.viz.utils.prepare_roi`, a
loading/preprocessing helper of the shared utility module (not under
`src/`); here the ROI is taken already loaded/transformed. -/
def prepare_roi (roi : Roi) : Roi := roi

/-- Modelled from the spec: `AFQ.viz.utils.load_volume`, a loading helper of
the shared utility module (not under `src/`); here the volume is taken
already loaded. -/
def load_volume (volume : Volume) : Volume := volume

/-! ### `visualize_bundles` (lines 39-132) -/

/-- `visualize_bundles`, for the unresampled case (`n_points = None`).
Returns the scene, the post-call contents of the caller's streamline
coordinate arrays (which the loop mutates in place via
`sl[:, k] = dimensions[k] - sl[:, k]`), the module-level state, and the
effect trace.  `freshId` is the identity a newly allocated scene gets when
`figure` is `None`. -/
def visualize_bundles (sft : List Streamline) (name : String)
    (color : BundleColor) (dims : Fin 3 → ℚ) (color_by_direction : Bool)
    (opacity : ℚ) (flip_axes : Fin 3 → Bool) (figure : Option Scene)
    (background : ℚ × ℚ × ℚ) (interact inline : Bool) (freshId : ℕ)
    (g : Globals) : Scene × List Streamline × Globals × List Effect :=
  let fig := match figure with
    | none => Scene.new freshId
    | some f => f
  let fig := { fig with background := background }
  let step := fun (acc : Scene × List Streamline)
      (grp : List Streamline × BundleColor × String × (Fin 3 → ℚ)) =>
    let (sls, color, gname, gdims) := grp
    let color := if gname = "all_bundles" then BundleColor.directional sls else color
    let sls := sls.map (flipStreamline flip_axes gdims)
    let a :=
      if color_by_direction then FuryActor.line sls none opacity true 6
      else FuryActor.line sls (some color) opacity true 6
    (acc.1.add a, acc.2 ++ sls)
  let (figOut, sftAfter) :=
    (tract_generator sft name color dims).foldl step (fig, [])
  let (figOut, tr) := _inline_interact figOut inline interact
  (figOut, sftAfter, g, tr)

/-! ### `scene_rotate_forward` and `create_gif` (lines 135-188) -/

/-- `scene_rotate_forward`: elevates the camera by 90 degrees, sets the view
up vector and resets the camera, returning the same scene. -/
def scene_rotate_forward (scene : Scene) (g : Globals) : Scene × Globals :=
  ({ scene with
      elevationDeg := scene.elevationDeg + 90
      viewUp := (0, 0, 1)
      cameraReset := true }, g)

/-- `create_gif`: optionally rotates the figure forward, records rotating
frames and assembles them into a gif (both external effects); returns
nothing. -/
def create_gif (figure : Scene) (file_name : String) (n_frames : ℕ)
    (zoom : ℚ) (z_offset : ℚ) (size : ℕ × ℕ) (rotate_forward : Bool)
    (g : Globals) : Globals × List Effect :=
  let (figure, g) :=
    if rotate_forward then scene_rotate_forward figure g else (figure, g)
  (g, [Effect.record figure.sid n_frames zoom size,
       Effect.gifFromPngs file_name n_frames])

/-! ### `visualize_roi` (lines 191-264) -/

/-- `visualize_roi`: prepares the ROI, flips it along the requested axes
(`np.flip`, a copying operation), adds a contour actor and returns the
scene. -/
def visualize_roi (roi : Roi) (figure : Option Scene) (color : Point)
    (flip_axes : Fin 3 → Bool) (opacity : ℚ) (inline interact : Bool)
    (freshId : ℕ) (g : Globals) : Scene × Globals × List Effect :=
  let roi := prepare_roi roi
  let roi := (List.finRange 3).foldl
    (fun r i => if flip_axes i then npFlip3 i r else r) roi
  let fig := match figure with
    | none => Scene.new freshId
    | some f => f
  let fig := fig.add (FuryActor.contourFromRoi roi color opacity)
  let (fig, tr) := _inline_interact fig inline interact
  (fig, g, tr)

/-! ### `visualize_volume` (lines 267-446) -/

/-- The Z-slice slider of `visualize_volume`:
`ui.LineSlider2D(min_value=0, max_value=shape[2]-1,
initial_value=shape[2]/2, length=140)`. -/
def line_slider_z (shape : ℕ × ℕ × ℕ) : Slider :=
  ⟨0, (shape.2.2 : ℚ) - 1, (shape.2.2 : ℚ) / 2, 140⟩

/-- The X-slice slider of `visualize_volume`. -/
def line_slider_x (shape : ℕ × ℕ × ℕ) : Slider :=
  ⟨0, (shape.1 : ℚ) - 1, (shape.1 : ℚ) / 2, 140⟩

/-- The Y-slice slider of `visualize_volume`. -/
def line_slider_y (shape : ℕ × ℕ × ℕ) : Slider :=
  ⟨0, (shape.2.1 : ℚ) - 1, (shape.2.1 : ℚ) / 2, 140⟩

/-- The opacity slider of `visualize_volume`. -/
def opacity_slider (slicer_opacity : ℚ) : Slider :=
  ⟨0, 1, slicer_opacity, 140⟩

/-- The slider callback `change_slice_z`: the display extent it sets on
`image_actor_z` for a given slider value. -/
def change_slice_z (shape : ℕ × ℕ × ℕ) (sliderValue : ℚ) : Extent :=
  let z := npRound sliderValue
  (0, (shape.1 : ℤ) - 1, 0, (shape.2.1 : ℤ) - 1, z, z)

/-- The slider callback `change_slice_x`: the display extent it sets on
`image_actor_x` for a given slider value. -/
def change_slice_x (shape : ℕ × ℕ × ℕ) (sliderValue : ℚ) : Extent :=
  let x := npRound sliderValue
  (x, x, 0, (shape.2.1 : ℤ) - 1, 0, (shape.2.2 : ℤ) - 1)

/-- The slider callback `change_slice_y`: the display extent it sets on
`image_actor_y` for a given slider value. -/
def change_slice_y (shape : ℕ × ℕ × ℕ) (sliderValue : ℚ) : Extent :=
  let y := npRound sliderValue
  (0, (shape.1 : ℤ) - 1, y, y, 0, (shape.2.2 : ℤ) - 1)

/-- The interactive panel of `visualize_volume`, with its labels and the
four sliders in the order they are added. -/
def volumePanel (shape : ℕ × ℕ × ℕ) (slicer_opacity : ℚ) : FuryActor :=
  FuryActor.panel ["X Slice", "Y Slice", "Z Slice", "Opacity"]
    [line_slider_x shape, line_slider_y shape, line_slider_z shape,
     opacity_slider slicer_opacity]

/-- `visualize_volume`: adds three slicer actors (full-volume Z slicer, and
X/Y slicers restricted by `display_extent` to the slice given by `x` / `y`,
defaulting to `int(np.round(shape[i] / 2))`), attaches a `ShowManager`
window of size 1200x900, builds the slider panel when `interact` is set —
and then executes `global size; size = figure.GetSize()`, mutating the
module-level variable — zooms, and returns the scene.  The `z` and
`flip_axes` parameters are accepted but never read by the body. -/
def visualize_volume (volume : Volume) (x y z : Option ℤ)
    (figure : Option Scene) (flip_axes : Option (Fin 3 → Bool)) (opacity : ℚ)
    (inline interact : Bool) (freshId : ℕ) (g : Globals) :
    Scene × Globals × List Effect :=
  let volume := load_volume volume
  let fig := match figure with
    | none => Scene.new freshId
    | some f => f
  let shape := (volume.shape0, volume.shape1, volume.shape2)
  let slicer_opacity := opacity
  let image_actor_z := FuryActor.slicer volume none slicer_opacity
  let xv := match x with
    | none => npRound ((shape.1 : ℚ) / 2)
    | some v => v
  let image_actor_x := FuryActor.slicer volume
    (some (xv, xv, 0, (shape.2.1 : ℤ) - 1, 0, (shape.2.2 : ℤ) - 1))
    slicer_opacity
  let yv := match y with
    | none => npRound ((shape.2.1 : ℚ) / 2)
    | some v => v
  let image_actor_y := FuryActor.slicer volume
    (some (0, (shape.1 : ℤ) - 1, yv, yv, 0, (shape.2.2 : ℤ) - 1))
    slicer_opacity
  let fig := ((fig.add image_actor_z).add image_actor_x).add image_actor_y
  let fig := { fig with winSize := (1200, 900) }
  let fig := if interact then fig.add (volumePanel shape slicer_opacity) else fig
  let g := if interact then some fig.winSize else g
  let fig := { fig with
    zoomFactor := fig.zoomFactor * 1.5
    clippingRangeReset := true }
  let preTrace : List Effect :=
    if interact then [Effect.render fig.sid, Effect.startEventLoop fig.sid]
    else []
  let (fig, tr) := _inline_interact fig inline interact
  (fig, g, preTrace ++ tr)

/-! ### `_draw_core` and `single_bundle_viz` (lines 449-572) -/

/-- The node label texts of `_draw_core`
(`text = [None] * n_points; text[label] = ...`): label `-1` addresses the
last node (Python negative indexing) and is shown as `str(n_points)`, any
other label is shown as itself. -/
def labelTexts (n_points : ℕ) (labelled : List ℤ) : List (Option String) :=
  labelled.foldl
    (fun t label =>
      if label = -1 then t.set (n_points - 1) (some (toString n_points))
      else t.set label.toNat (some (toString label)))
    (List.replicate n_points none)

/-- `_draw_core`.  `snopMedian` abstracts the external
`np.median(np.asarray(set_number_of_points(sls, n_points)), axis=0)`
(arc-length resampling involves square roots, hence is not ℚ-representable)
and `adjust` abstracts the per-segment lighting factor
`(np.dot(direc, light_direc) + 3) / 4` computed from the resulting core
line; everything else follows the source.  Returns `none` when the shading
loop raises `UnboundLocalError`, otherwise the scene with the core-line
actor added and `line_color_untouched`. -/
def _draw_core (snopMedian : List Streamline → ℕ → Streamline)
    (adjust : Streamline → ℕ → ℚ) (sls : List Streamline) (n_points : ℕ)
    (figure : Scene) (indiv_profile : List ℚ) (labelled_points : List ℤ)
    (dims : Fin 3 → ℚ) (flip_axes : Fin 3 → Bool) :
    Option (Scene × List Point) :=
  let fgarray := snopMedian sls n_points
  let line_color := drawCoreLineColor indiv_profile
  let line_color_untouched := line_color
  match shadeFactors (adjust fgarray) n_points with
  | none => none
  | some factors =>
    let shaded := List.zipWith
      (fun (c : Point) (f : ℚ) (j : Fin 3) => c j * f) line_color factors
    let _text := labelTexts n_points labelled_points
    let fgarray := flipStreamline flip_axes dims fgarray
    let figure := figure.add (FuryActor.lineColored [fgarray] shaded 1 true 20)
    some (figure, line_color_untouched)

/-- `single_bundle_viz`: draws the median core line of one bundle colored by
its tract profile.  `n_points = len(indiv_profile)`; the first group the
tract generator yields is drawn.  `none` models a propagated exception. -/
def single_bundle_viz (snopMedian : List Streamline → ℕ → Streamline)
    (adjust : Streamline → ℕ → ℚ) (indiv_profile : List ℚ)
    (sft : List Streamline) (bundle_name : String) (color : BundleColor)
    (dims : Fin 3 → ℚ) (flip_axes : Fin 3 → Bool) (labelled_nodes : List ℤ)
    (figure : Option Scene) (freshId : ℕ) (g : Globals) :
    Option Scene × Globals :=
  let fig := match figure with
    | none => { Scene.new freshId with background := (1, 1, 1) }
    | some f => f
  let n_points := indiv_profile.length
  match tract_generator sft bundle_name color dims with
  | [] => (none, g)
  | grp :: _ =>
    let (sls, _, _, gdims) := grp
    match _draw_core snopMedian adjust sls n_points fig indiv_profile
        labelled_nodes gdims flip_axes with
    | none => (none, g)
    | some (fig, _) => (some fig, g)

/-! ### helper lemmas -/

/-- The pointwise effect of one flip pass on an empty array. -/
lemma flipStreamline_nil (flip : Fin 3 → Bool) (dims : Fin 3 → ℚ) :
    flipStreamline flip dims [] = [] := by
  unfold flipStreamline flipAxis
  cases flip 0 <;> cases flip 1 <;> cases flip 2 <;> rfl

/-- The three conditional column updates act pointwise on the rows. -/
lemma flipStreamline_cons (flip : Fin 3 → Bool) (dims : Fin 3 → ℚ)
    (p : Point) (sl : Streamline) :
    flipStreamline flip dims (p :: sl) =
      (fun j => cond (flip j) (dims j - p j) (p j)) :: flipStreamline flip dims sl := by
  unfold flipStreamline flipAxis
  cases h0 : flip 0 <;> cases h1 : flip 1 <;> cases h2 : flip 2 <;>
    (simp only [h0, h1, h2, if_true, if_false, List.map_cons, Bool.false_eq_true,
       List.cons.injEq]
     refine ⟨?_, by trivial⟩
     funext j
     fin_cases j <;> simp [h0, h1, h2])

/-- `flipStreamline` is exactly the per-point, per-axis conditional
reflection `c ↦ dims i - c`. -/
lemma flipStreamline_map (flip : Fin 3 → Bool) (dims : Fin 3 → ℚ)
    (sl : Streamline) :
    flipStreamline flip dims sl =
      sl.map fun p j => cond (flip j) (dims j - p j) (p j) := by
  induction sl with
  | nil => simp [flipStreamline_nil]
  | cons p sl ih => rw [flipStreamline_cons, List.map_cons, ih]

/-- With all flips off, `flipStreamline` is the identity. -/
lemma flipStreamline_id (dims : Fin 3 → ℚ) (sl : Streamline) :
    flipStreamline (fun _ => false) dims sl = sl := by
  rw [flipStreamline_map]
  simp

/-- `np.round` of a value in `[0, M]` lands in `[0, M]` (as an integer). -/
lemma npRound_bounds (v : ℚ) (M : ℤ) (h0 : 0 ≤ v) (hM : v ≤ (M : ℚ)) :
    0 ≤ npRound v ∧ npRound v ≤ M := by
  have hf0 : (0 : ℤ) ≤ ⌊v⌋ := Int.floor_nonneg.mpr h0
  have hfM : ⌊v⌋ ≤ M := by
    have := Int.floor_le_floor hM
    simpa using this
  have hfl : (⌊v⌋ : ℚ) ≤ v := Int.floor_le v
  unfold npRound
  dsimp only
  split_ifs with h1 h2 h3
  · exact ⟨hf0, hfM⟩
  · refine ⟨by omega, ?_⟩
    have hhalf : (⌊v⌋ : ℚ) + 1 / 2 ≤ v := by
      have : ¬(v - (⌊v⌋ : ℚ) < 1 / 2) := h1
      push_neg at this
      linarith
    have : (⌊v⌋ : ℚ) < (M : ℚ) := by linarith
    have : ⌊v⌋ < M := by exact_mod_cast this
    omega
  · exact ⟨hf0, hfM⟩
  · refine ⟨by omega, ?_⟩
    have hhalf : (⌊v⌋ : ℚ) + 1 / 2 ≤ v := by
      have : ¬(v - (⌊v⌋ : ℚ) < 1 / 2) := h1
      push_neg at this
      linarith
    have : (⌊v⌋ : ℚ) < (M : ℚ) := by linarith
    have : ⌊v⌋ < M := by exact_mod_cast this
    omega

/-- The shading loop, once `direc_adjust` has been assigned at least once:
from index `i ≥ 1` on (with the factor of the previous iteration in hand) it
succeeds, and node `t` is scaled by the factor assigned at iteration
`min t (n - 2)`. -/
lemma shadeFactorsGo_spec (adjust : ℕ → ℚ) (n : ℕ) :
    ∀ k i : ℕ, i + k = n → 1 ≤ i →
      shadeFactorsGo adjust n k i (some (adjust (min (i - 1) (n - 2)))) =
        some ((List.range k).map fun t => adjust (min (i + t) (n - 2))) := by
  intro k
  induction k with
  | zero => intro i _ _; rfl
  | succ k ih =>
    intro i hik hi
    by_cases hlt : i < n - 1
    · have hrec := ih (i + 1) (by omega) (by omega)
      have hmin' : (i + 1 - 1) ⊓ (n - 2) = i := by omega
      rw [hmin'] at hrec
      simp only [shadeFactorsGo, hlt, if_true]
      rw [hrec]
      simp only [Option.map_some', List.range_succ_eq_map, List.map_cons,
        List.map_map, Option.some.injEq, List.cons.injEq]
      refine ⟨congrArg adjust (by omega), ?_⟩
      apply List.map_congr_left
      intro a _
      simp only [Function.comp]
      exact congrArg adjust (by omega)
    · have hk0 : k = 0 := by omega
      subst hk0
      simp only [shadeFactorsGo, hlt, if_false]
      simp only [List.range_succ_eq_map, List.range_zero, List.map_nil,
        List.map_cons, Option.map_some', Option.some.injEq, List.cons.injEq]
      exact ⟨congrArg adjust (by omega), trivial⟩

/-- The first iteration of the shading loop when there are at least two
nodes: `direc_adjust` gets its first assignment. -/
lemma shadeFactorsGo_first (adjust : ℕ → ℚ) (n k : ℕ) (h : 0 < n - 1) :
    shadeFactorsGo adjust n (k + 1) 0 none =
      Option.map (fun rest => adjust 0 :: rest)
        (shadeFactorsGo adjust n k 1 (some (adjust 0))) := by
  simp only [shadeFactorsGo, h, if_true, Nat.zero_add]

/-- For `n ≥ 2` nodes the shading loop succeeds and scales node `t` by the
factor assigned at iteration `min t (n - 2)`. -/
lemma shadeFactors_eq (adjust : ℕ → ℚ) (n : ℕ) (hn : 2 ≤ n) :
    shadeFactors adjust n =
      some ((List.range n).map fun t => adjust (min t (n - 2))) := by
  obtain ⟨m, rfl⟩ : ∃ m, n = m + 2 := ⟨n - 2, by omega⟩
  unfold shadeFactors
  have hfirst := shadeFactorsGo_first adjust (m + 2) (m + 1) (by omega)
  rw [show (m : ℕ) + 1 + 1 = m + 2 from by omega] at hfirst
  rw [hfirst]
  have hrec := shadeFactorsGo_spec adjust (m + 2) (m + 1) 1 (by omega) (by omega)
  have hmin : (1 - 1) ⊓ (m + 2 - 2) = 0 := by omega
  rw [hmin] at hrec
  rw [hrec]
  have h2 : List.range (m + 2) = 0 :: (List.range (m + 1)).map Nat.succ :=
    List.range_succ_eq_map (m + 1)
  rw [h2]
  simp only [Option.map_some', List.map_cons, List.map_map, Option.some.injEq,
    List.cons.injEq]
  refine ⟨congrArg adjust (by omega), ?_⟩
  apply List.map_congr_left
  intro a _
  simp only [Function.comp]
  exact congrArg adjust (by omega)

/-- For a single node the loop reads `direc_adjust` before any assignment. -/
lemma shadeFactors_one (adjust : ℕ → ℚ) : shadeFactors adjust 1 = none := rfl

/-! ### claim theorems -/

/-- C2: Axis flipping is the stated preprocessing.  The flipping operation
`flipStreamline` — applied by `visualize_bundles` to every streamline and by
`_draw_core` to the median core line — replaces, for each axis `i` with
`flip_axes[i]` set, every point's coordinate `c` along axis `i` by
`dimensions[i] - c`, and leaves coordinates along unflipped axes unchanged. -/
theorem flip_axes_is_conditional_reflection (flip : Fin 3 → Bool)
    (dims : Fin 3 → ℚ) (sl : Streamline) :
    flipStreamline flip dims sl =
      sl.map fun p j => cond (flip j) (dims j - p j) (p j) :=
  flipStreamline_map flip dims sl

/-- C3: When any of the optional rendering dependencies is missing, importing
the module fails with exactly `ImportError(vut.viz_import_msg_error("fury"))`;
when all are present the import guard raises nothing. -/
theorem import_guard_raises_guidance_importError (e : ImportEnv) :
    moduleImportGuard e =
      cond e.allPresent (Except.ok ())
        (Except.error (PyExc.importError (viz_import_msg_error "fury"))) := by
  obtain ⟨a, b, c⟩ := e
  cases a <;> cases b <;> cases c <;> rfl

/-- C9: The `z` parameter of `visualize_volume` has no effect: two calls that
differ only in `z` produce identical scenes, identical module-level state
and identical effect traces. -/
theorem visualize_volume_z_has_no_effect (volume : Volume) (x y z₁ z₂ : Option ℤ)
    (figure : Option Scene) (flip_axes : Option (Fin 3 → Bool)) (opacity : ℚ)
    (inline interact : Bool) (freshId : ℕ) (g : Globals) :
    visualize_volume volume x y z₁ figure flip_axes opacity inline interact
        freshId g =
      visualize_volume volume x y z₂ figure flip_axes opacity inline interact
        freshId g := rfl

/-- C10: In the shading loop of `_draw_core`, `direc_adjust` is assigned only
at iterations `i < n_points - 1`; for `n_points ≥ 2` every read is preceded
by an assignment (the loop succeeds), and the last node is scaled by the
same factor as the second-to-last node; for `n_points = 1` the factor is
read before any assignment and the call fails (`UnboundLocalError`,
modelled as `none`, which `_draw_core` propagates). -/
theorem direc_adjust_assignment_dataflow (adjust : ℕ → ℚ) (n : ℕ) :
    shadeFactors adjust 1 = none
    ∧ (2 ≤ n → ∃ fs, shadeFactors adjust n = some fs ∧ fs.length = n
        ∧ fs.getD (n - 1) 0 = adjust (n - 2) ∧ fs.getD (n - 2) 0 = adjust (n - 2))
    ∧ (∀ (snop : List Streamline → ℕ → Streamline)
        (adj : Streamline → ℕ → ℚ) (sls : List Streamline) (figure : Scene)
        (profile : List ℚ) (lab : List ℤ) (dims : Fin 3 → ℚ)
        (fa : Fin 3 → Bool),
        _draw_core snop adj sls 1 figure profile lab dims fa = none) := by
  refine ⟨shadeFactors_one adjust, ?_, ?_⟩
  · intro hn
    refine ⟨_, shadeFactors_eq adjust n hn, ?_, ?_, ?_⟩
    · simp
    · have h1 : n - 1 < n := by omega
      rw [List.getD_eq_getElem?_getD]
      simp only [List.getElem?_map, List.getElem?_range h1, Option.map_some',
        Option.getD_some]
      exact congrArg adjust (by omega)
    · have h2 : n - 2 < n := by omega
      rw [List.getD_eq_getElem?_getD]
      simp only [List.getElem?_map, List.getElem?_range h2, Option.map_some',
        Option.getD_some]
      exact congrArg adjust (by omega)
  · intro snop adj sls figure profile lab dims fa
    rfl

/-- Witness for C10 at `n = 3` with a concrete factor function. -/
theorem direc_adjust_assignment_dataflow_witness :
    2 ≤ 3 ∧ ∃ fs, shadeFactors (fun i => (i : ℚ)) 3 = some fs ∧ fs.length = 3
      ∧ fs.getD (3 - 1) 0 = ((3 : ℕ) - 2 : ℕ)
      ∧ fs.getD (3 - 2) 0 = ((3 : ℕ) - 2 : ℕ) :=
  ⟨by decide, (direc_adjust_assignment_dataflow (fun i => (i : ℚ)) 3).2.1 (by decide)⟩

/-- C5: Scene pipeline and return value: `visualize_bundles`,
`visualize_roi` and `visualize_volume` return the scene they configured —
the very scene object passed as `figure` when one is provided (same
identity, actors appended), and a newly created `window.Scene()` only when
`figure` is `None` — and `_inline_interact` returns the scene it was given
regardless of the `inline`/`interact` flags. -/
theorem visualize_functions_return_their_scene (sft : List Streamline)
    (name : String) (color : BundleColor) (dims : Fin 3 → ℚ)
    (cbd : Bool) (op : ℚ) (fa : Fin 3 → Bool) (fig : Scene)
    (bg : ℚ × ℚ × ℚ) (itc inl : Bool) (fresh : ℕ) (g : Globals)
    (roi : Roi) (c2 : Point) (fa2 : Fin 3 → Bool) (op2 : ℚ)
    (inl2 itc2 : Bool) (fresh2 : ℕ)
    (vol : Volume) (x y z : Option ℤ) (fa3 : Option (Fin 3 → Bool))
    (op3 : ℚ) (inl3 itc3 : Bool) (fresh3 : ℕ)
    (s : Scene) (inl4 itc4 : Bool) :
    (visualize_bundles sft name color dims cbd op fa (some fig) bg itc inl
        fresh g).1.sid = fig.sid
    ∧ (∃ added, (visualize_bundles sft name color dims cbd op fa (some fig)
        bg itc inl fresh g).1.actors = fig.actors ++ added)
    ∧ (visualize_roi roi (some fig) c2 fa2 op2 inl2 itc2 fresh2 g).1.sid = fig.sid
    ∧ (∃ added, (visualize_roi roi (some fig) c2 fa2 op2 inl2 itc2 fresh2
        g).1.actors = fig.actors ++ added)
    ∧ (visualize_volume vol x y z (some fig) fa3 op3 inl3 itc3 fresh3
        g).1.sid = fig.sid
    ∧ (∃ added, (visualize_volume vol x y z (some fig) fa3 op3 inl3 itc3
        fresh3 g).1.actors = fig.actors ++ added)
    ∧ (visualize_bundles sft name color dims cbd op fa none bg itc inl
        fresh g).1.sid = fresh
    ∧ (visualize_roi roi none c2 fa2 op2 inl2 itc2 fresh2 g).1.sid = fresh2
    ∧ (visualize_volume vol x y z none fa3 op3 inl3 itc3 fresh3 g).1.sid = fresh3
    ∧ (_inline_interact s inl4 itc4).1 = s := by
  refine ⟨rfl, ⟨_, rfl⟩, rfl, ⟨_, rfl⟩, ?_, ?_, rfl, rfl, ?_, rfl⟩
  · cases itc3 <;> rfl
  · cases itc3 <;>
      exact ⟨_, by simp only [visualize_volume, load_volume, Scene.add,
        _inline_interact, List.append_assoc]; rfl⟩
  · cases itc3 <;> rfl

/-- C8: `visualize_bundles` mutates its input: the caller's streamline
coordinate arrays end the call holding the flipped coordinates
(`c ↦ dimensions[i] - c` along every flipped axis `i`), and are left
unchanged when `flip_axes` is all `False`. -/
theorem visualize_bundles_mutates_caller_arrays (sft : List Streamline)
    (name : String) (color : BundleColor) (dims : Fin 3 → ℚ) (cbd : Bool)
    (op : ℚ) (flip : Fin 3 → Bool) (figure : Option Scene) (bg : ℚ × ℚ × ℚ)
    (itc inl : Bool) (fresh : ℕ) (g : Globals) :
    (visualize_bundles sft name color dims cbd op flip figure bg itc inl
        fresh g).2.1 =
      sft.map (fun sl => sl.map fun p j => cond (flip j) (dims j - p j) (p j))
    ∧ (visualize_bundles sft name color dims cbd op (fun _ => false) figure
        bg itc inl fresh g).2.1 = sft := by
  constructor
  · exact List.map_congr_left fun sl _ => flipStreamline_map flip dims sl
  · have h1 : (visualize_bundles sft name color dims cbd op (fun _ => false)
        figure bg itc inl fresh g).2.1 =
        sft.map (flipStreamline (fun _ => false) dims) := rfl
    rw [h1]
    have h2 : sft.map (flipStreamline (fun _ => false) dims) = sft.map id :=
      List.map_congr_left fun sl _ => flipStreamline_id dims sl
    rw [h2, List.map_id]

/-- C1 counterexample: a concrete call to `visualize_volume` with
`interact=True` executes `global size; size = figure.GetSize()`, creating /
mutating the module-level variable `size` — so it is not the case that no
call to the module's rendering functions creates or mutates a module-level
variable. -/
theorem visualize_volume_interact_mutates_module_state :
    (visualize_volume ⟨2, 2, 2, []⟩ none none none none none (6 / 10) false
        true 0 none).2.1 ≠ none := by decide

/-- C1 (amended): every rendering function except `visualize_volume` leaves
the module-level state unchanged, and `visualize_volume` changes it only
when `interact` is set, in which case it overwrites the module-level `size`
with the figure's window size `(1200, 900)` without ever reading the
previous module state — so no function reads module state and the
observable behaviour of a call still does not depend on which calls were
made before it. -/
theorem module_state_only_written_by_volume_interact (sft : List Streamline)
    (name : String) (color : BundleColor) (dims : Fin 3 → ℚ) (cbd : Bool)
    (op : ℚ) (fa : Fin 3 → Bool) (figure : Option Scene) (bg : ℚ × ℚ × ℚ)
    (itc inl : Bool) (fresh : ℕ)
    (roi : Roi) (figure2 : Option Scene) (c2 : Point) (fa2 : Fin 3 → Bool)
    (op2 : ℚ) (inl2 itc2 : Bool) (fresh2 : ℕ)
    (snop : List Streamline → ℕ → Streamline) (adj : Streamline → ℕ → ℚ)
    (profile : List ℚ) (sft3 : List Streamline) (bn3 : String)
    (c3 : BundleColor) (dims3 : Fin 3 → ℚ) (fa3 : Fin 3 → Bool)
    (lab3 : List ℤ) (figure3 : Option Scene) (fresh3 : ℕ)
    (fig4 : Scene) (fn4 : String) (nf4 : ℕ) (zm4 zo4 : ℚ) (sz4 : ℕ × ℕ)
    (rot4 : Bool) (fig5 : Scene)
    (vol : Volume) (x y z : Option ℤ) (figure6 : Option Scene)
    (fa6 : Option (Fin 3 → Bool)) (op6 : ℚ) (inl6 itc6 : Bool) (fresh6 : ℕ)
    (g g' : Globals) :
    (visualize_bundles sft name color dims cbd op fa figure bg itc inl
        fresh g).2.2.1 = g
    ∧ (visualize_roi roi figure2 c2 fa2 op2 inl2 itc2 fresh2 g).2.1 = g
    ∧ (single_bundle_viz snop adj profile sft3 bn3 c3 dims3 fa3 lab3
        figure3 fresh3 g).2 = g
    ∧ (create_gif fig4 fn4 nf4 zm4 zo4 sz4 rot4 g).1 = g
    ∧ (scene_rotate_forward fig5 g).2 = g
    ∧ (visualize_volume vol x y z figure6 fa6 op6 inl6 itc6 fresh6 g).2.1 =
        cond itc6 (some (1200, 900)) g
    ∧ (visualize_volume vol x y z figure6 fa6 op6 inl6 itc6 fresh6 g).1 =
        (visualize_volume vol x y z figure6 fa6 op6 inl6 itc6 fresh6 g').1
    ∧ (visualize_volume vol x y z figure6 fa6 op6 inl6 itc6 fresh6 g).2.2 =
        (visualize_volume vol x y z figure6 fa6 op6 inl6 itc6 fresh6 g').2.2 := by
  refine ⟨rfl, rfl, ?_, ?_, rfl, ?_, rfl, rfl⟩
  · simp only [single_bundle_viz, tract_generator]
    split <;> rfl
  · simp only [create_gif]
    split <;> rfl
  · cases itc6 <;> rfl

/-- C6: the slice-position callbacks keep the displayed slice within the
volume: for a slider value `v` within the bounds the sliders are
constructed with (`min_value=0`, `max_value=shape[i]-1`), callback
`change_slice_x`/`y`/`z` sets its actor's display extent to the single
in-bounds slice `round(v)` along its own axis and to the full range
`0 .. shape[j]-1` along the other two axes. -/
theorem change_slice_callbacks_stay_in_bounds (shape : ℕ × ℕ × ℕ)
    (vx vy vz : ℚ)
    (hx0 : 0 ≤ vx) (hx1 : vx ≤ (shape.1 : ℚ) - 1)
    (hy0 : 0 ≤ vy) (hy1 : vy ≤ (shape.2.1 : ℚ) - 1)
    (hz0 : 0 ≤ vz) (hz1 : vz ≤ (shape.2.2 : ℚ) - 1) :
    (change_slice_x shape vx =
        (npRound vx, npRound vx, 0, (shape.2.1 : ℤ) - 1, 0, (shape.2.2 : ℤ) - 1)
      ∧ 0 ≤ npRound vx ∧ npRound vx ≤ (shape.1 : ℤ) - 1)
    ∧ (change_slice_y shape vy =
        (0, (shape.1 : ℤ) - 1, npRound vy, npRound vy, 0, (shape.2.2 : ℤ) - 1)
      ∧ 0 ≤ npRound vy ∧ npRound vy ≤ (shape.2.1 : ℤ) - 1)
    ∧ (change_slice_z shape vz =
        (0, (shape.1 : ℤ) - 1, 0, (shape.2.1 : ℤ) - 1, npRound vz, npRound vz)
      ∧ 0 ≤ npRound vz ∧ npRound vz ≤ (shape.2.2 : ℤ) - 1)
    ∧ line_slider_x shape = ⟨0, (shape.1 : ℚ) - 1, (shape.1 : ℚ) / 2, 140⟩
    ∧ line_slider_y shape = ⟨0, (shape.2.1 : ℚ) - 1, (shape.2.1 : ℚ) / 2, 140⟩
    ∧ line_slider_z shape = ⟨0, (shape.2.2 : ℚ) - 1, (shape.2.2 : ℚ) / 2, 140⟩ := by
  have hx := npRound_bounds vx ((shape.1 : ℤ) - 1) hx0 (by push_cast; linarith)
  have hy := npRound_bounds vy ((shape.2.1 : ℤ) - 1) hy0 (by push_cast; linarith)
  have hz := npRound_bounds vz ((shape.2.2 : ℤ) - 1) hz0 (by push_cast; linarith)
  exact ⟨⟨rfl, hx⟩, ⟨rfl, hy⟩, ⟨rfl, hz⟩, rfl, rfl, rfl⟩

/-- Witness for C6 on a concrete 3x4x5 volume with slider value 3/2. -/
theorem change_slice_callbacks_stay_in_bounds_witness :
    (0 : ℚ) ≤ 3 / 2 ∧ (3 / 2 : ℚ) ≤ ((3 : ℕ) : ℚ) - 1
      ∧ 0 ≤ npRound (3 / 2) ∧ npRound (3 / 2) ≤ ((3 : ℕ) : ℤ) - 1 := by
  have h := change_slice_callbacks_stay_in_bounds (3, 4, 5) (3 / 2) (3 / 2)
    (3 / 2) (by norm_num) (by norm_num) (by norm_num) (by norm_num)
    (by norm_num) (by norm_num)
  exact ⟨by norm_num, by norm_num, h.1.2.1, h.1.2.2⟩

/-- `List.range 10` written out. -/
lemma range_ten : List.range 10 = [0, 1, 2, 3, 4, 5, 6, 7, 8, 9] := by decide

/-- `np.interp` returns the first value when `x` is at (or below) the first
sample point. -/
lemma npInterp_head (x : ℚ) (a : ℚ × ℚ) (rest : List (ℚ × ℚ)) (h : x ≤ a.1) :
    npInterp x (a :: rest) = a.2 := by
  cases rest with
  | nil => rfl
  | cons b rest' =>
    rw [show npInterp x (a :: b :: rest') =
        (if x ≤ a.1 then a.2
         else if x ≤ b.1 then a.2 + (b.2 - a.2) * (x - a.1) / (b.1 - a.1)
         else npInterp x (b :: rest')) from rfl, if_pos h]

/-- `np.interp` returns the last value when `x` equals the last sample point
and all earlier sample points lie strictly below `x`. -/
lemma npInterp_append_last (x : ℚ) (b : ℚ × ℚ) (hxb : x = b.1) :
    ∀ ps : List (ℚ × ℚ), (∀ p ∈ ps, p.1 < x) →
      npInterp x (ps ++ [b]) = b.2 := by
  intro ps
  induction ps with
  | nil => intro _; rfl
  | cons a rest ih =>
    intro hlt
    have ha : a.1 < x := hlt a (List.mem_cons_self a rest)
    cases rest with
    | nil =>
      show npInterp x [a, b] = b.2
      rw [show npInterp x [a, b] =
          (if x ≤ a.1 then a.2
           else if x ≤ b.1 then a.2 + (b.2 - a.2) * (x - a.1) / (b.1 - a.1)
           else npInterp x [b]) from rfl,
        if_neg (not_le.mpr ha), if_pos (le_of_eq hxb)]
      subst hxb
      have hne : b.1 - a.1 ≠ 0 := sub_ne_zero.mpr (ne_of_gt ha)
      field_simp
    | cons c rest' =>
      have hc : c.1 < x := hlt c (by simp)
      show npInterp x (a :: c :: (rest' ++ [b])) = b.2
      rw [show npInterp x (a :: c :: (rest' ++ [b])) =
          (if x ≤ a.1 then a.2
           else if x ≤ c.1 then a.2 + (c.2 - a.2) * (x - a.1) / (c.1 - a.1)
           else npInterp x (c :: (rest' ++ [b]))) from rfl,
        if_neg (not_le.mpr ha), if_neg (not_le.mpr hc)]
      exact ih fun p hp => hlt p (List.mem_cons_of_mem a hp)

/-- Interpolating at the low end of the linspace yields the first colormap
value. -/
lemma npInterp_linspace_colormap_min (lo hi : ℚ) (j : Fin 3) :
    npInterp lo (List.zip (linspace lo hi colormap.length)
      (colormap.map fun c => c j)) = colormapFirst j := by
  show npInterp lo (List.zip (linspace lo hi 10) (colormap.map fun c => c j)) = _
  rw [linspace, range_ten]
  show npInterp lo ((lo + (hi - lo) * ((0 : ℕ) : ℚ) / ((10 : ℚ) - 1),
      ![(0.265625 : ℚ), 0.00390625, 0.328125] j) :: _) = _
  rw [npInterp_head]
  · rfl
  · show lo ≤ lo + (hi - lo) * ((0 : ℕ) : ℚ) / ((10 : ℚ) - 1)
    norm_num

/-- Interpolating at the high end of the linspace yields the last colormap
value (this needs the sample points to be strictly increasing, i.e.
`lo < hi`). -/
lemma npInterp_linspace_colormap_max (lo hi : ℚ) (h : lo < hi) (j : Fin 3) :
    npInterp hi (List.zip (linspace lo hi colormap.length)
      (colormap.map fun c => c j)) = colormapLast j := by
  have hd : (0 : ℚ) < hi - lo := sub_pos.mpr h
  show npInterp hi (List.zip (linspace lo hi 10) (colormap.map fun c => c j)) = _
  rw [linspace, range_ten]
  show npInterp hi
      ([(lo + (hi - lo) * ((0 : ℕ) : ℚ) / ((10 : ℚ) - 1),
          ![(0.265625 : ℚ), 0.00390625, 0.328125] j),
        (lo + (hi - lo) * ((1 : ℕ) : ℚ) / ((10 : ℚ) - 1),
          ![(0.28125 : ℚ), 0.15625, 0.46875] j),
        (lo + (hi - lo) * ((2 : ℕ) : ℚ) / ((10 : ℚ) - 1),
          ![(0.2421875 : ℚ), 0.28515625, 0.53515625] j),
        (lo + (hi - lo) * ((3 : ℕ) : ℚ) / ((10 : ℚ) - 1),
          ![(0.19140625 : ℚ), 0.40625, 0.5546875] j),
        (lo + (hi - lo) * ((4 : ℕ) : ℚ) / ((10 : ℚ) - 1),
          ![(0.1484375 : ℚ), 0.5078125, 0.5546875] j),
        (lo + (hi - lo) * ((5 : ℕ) : ℚ) / ((10 : ℚ) - 1),
          ![(0.12109375 : ℚ), 0.6171875, 0.53515625] j),
        (lo + (hi - lo) * ((6 : ℕ) : ℚ) / ((10 : ℚ) - 1),
          ![(0.20703125 : ℚ), 0.71484375, 0.47265625] j),
        (lo + (hi - lo) * ((7 : ℕ) : ℚ) / ((10 : ℚ) - 1),
          ![(0.4296875 : ℚ), 0.8046875, 0.34375] j),
        (lo + (hi - lo) * ((8 : ℕ) : ℚ) / ((10 : ℚ) - 1),
          ![(0.70703125 : ℚ), 0.8671875, 0.16796875] j)]
       ++ [(lo + (hi - lo) * ((9 : ℕ) : ℚ) / ((10 : ℚ) - 1),
          ![(0.98828125 : ℚ), 0.90234375, 0.14453125] j)]) = _
  rw [npInterp_append_last hi _ (by push_cast; ring)]
  · rfl
  · intro p hp
    simp only [List.mem_cons, List.not_mem_nil, or_false] at hp
    rcases hp with rfl | rfl | rfl | rfl | rfl | rfl | rfl | rfl | rfl <;>
      (show lo + (hi - lo) * _ / ((10 : ℚ) - 1) < hi; push_cast; linarith)

/-- C4: Color interpolation along the colormap in `_draw_core`: node `k`'s
pre-shading color channel `j` is the piecewise-linear interpolation
(`np.interp`) of node `k`'s profile value against the fixed 10-entry
colormap column `j` over the sample points `np.linspace(min, max, 10)` of
the profile; and when `min(indiv_profile) < max(indiv_profile)`, a node
attaining the minimum gets the first colormap color and a node attaining
the maximum gets the last. -/
theorem draw_core_color_interpolation (profile : List ℚ) (k : ℕ)
    (hk : k < profile.length) (hk' : k < (drawCoreLineColor profile).length)
    (j : Fin 3) :
    (drawCoreLineColor profile).get ⟨k, hk'⟩ j =
      npInterp (profile.get ⟨k, hk⟩)
        (List.zip (drawCoreXp profile) (colormap.map fun c => c j))
    ∧ (npMin profile < npMax profile →
        (profile.get ⟨k, hk⟩ = npMin profile →
          (drawCoreLineColor profile).get ⟨k, hk'⟩ j = colormapFirst j)
      ∧ (profile.get ⟨k, hk⟩ = npMax profile →
          (drawCoreLineColor profile).get ⟨k, hk'⟩ j = colormapLast j)) := by
  have hmap : (drawCoreLineColor profile).get ⟨k, hk'⟩ =
      fun j => npInterp (profile.get ⟨k, hk⟩)
        (List.zip (drawCoreXp profile) (colormap.map fun c => c j)) := by
    unfold drawCoreLineColor at hk' ⊢
    simp [List.get_eq_getElem, List.getElem_map]
  refine ⟨congrFun hmap j, fun hlt => ⟨fun hv => ?_, fun hv => ?_⟩⟩
  · rw [congrFun hmap j, hv]
    unfold drawCoreXp
    exact npInterp_linspace_colormap_min (npMin profile) (npMax profile) j
  · rw [congrFun hmap j, hv]
    unfold drawCoreXp
    exact npInterp_linspace_colormap_max (npMin profile) (npMax profile) hlt j

/-- Witness for C4 on the concrete profile `[1, 3, 2]`, whose first node
attains the minimum. -/
theorem draw_core_color_interpolation_witness :
    0 < [(1 : ℚ), 3, 2].length
    ∧ npMin [(1 : ℚ), 3, 2] < npMax [(1 : ℚ), 3, 2]
    ∧ (drawCoreLineColor [(1 : ℚ), 3, 2]).get ⟨0, by decide⟩ 0 = colormapFirst 0 :=
  ⟨by decide, by decide,
    ((draw_core_color_interpolation [(1 : ℚ), 3, 2] 0 (by decide) (by decide)
        0).2 (by decide)).1 (by decide)⟩

end FuryBackend
